import Mathlib

/-
Verification of the `Client` class of httpcore (src/httpcore/client.py).

The file shallowly embeds `client.py`.  The classes the client wires together
(adapters, connection pool, Request/Response models, the configuration value
objects) live in modules that are not part of the sources at hand, so they are
modelled from the spec as opaque value types, and the adapter chain is modelled
as an inductive datatype whose constructors record exactly the configuration
each layer is given.  Dispatch is modelled by an effect trace: each client
operation returns the list of calls it makes on its adapter chain, with the
behaviour of the (external) adapters abstracted as a parameter.
-/

namespace Httpcore

/-- Modelled from the spec: `SSLConfig` is an immutable value object carrying
trust/verification settings (verification mode, trust bundle, client cert).
Its definition lives in `httpcore/config.py`, which is not among the sources;
only its identity as a passed-by-value configuration object matters here. -/
structure SSLConfig where
  verification_mode : Nat
  trust_bundle : String
  client_cert : Option String
  deriving DecidableEq

/-- Modelled from the spec: `TimeoutConfig` carries connect/read/write/pool-acquire
timeouts, each independently settable.  Defined in `httpcore/config.py`, which is
not among the sources. -/
structure TimeoutConfig where
  connect : Option Nat
  read : Option Nat
  write : Option Nat
  pool_acquire : Option Nat
  deriving DecidableEq

/-- Modelled from the spec: `PoolLimits` carries max total connections and max
keepalive connections.  Defined in `httpcore/config.py`, which is not among the
sources. -/
structure PoolLimits where
  max_connections : Option Nat
  max_keepalive : Option Nat
  deriving DecidableEq

/-- Modelled from the spec: a `Request` holds a method string, a URL, a body and
the optional query params and headers; its constructor stores exactly the values
the caller passes (`Request(method, url, data=..., query_params=..., headers=...)`).
The class itself is in `httpcore/models.py`, which is not among the sources.
The URL is kept opaque as a string, the body as a list of byte values, and the
optional query-param/header collections as optional association lists, with
`none` standing for the Python `None` default. -/
structure Request where
  method : String
  url : String
  data : List Nat
  query_params : Option (List (String × String))
  headers : Option (List (String × String))
  deriving DecidableEq

/-- Modelled from the spec: a `Response` has a status code, headers, a body and
a history; it is produced by the adapter chain and `client.py` never inspects
it, so it is kept opaque up to a status code and a body. -/
structure Response where
  status_code : Nat
  content : List Nat
  deriving DecidableEq

/-- Modelled from the spec: the dispatcher layers that `Client.__init__` wires
together — a connection pool wrapped by the cookie, authentication, redirect
and environment adapters, each holding a reference to the layer it wraps.
Each constructor records exactly the arguments the corresponding Python
constructor is given in `client.py` (the adapters and the pool are defined in
modules not among the sources). -/
inductive Dispatcher where
  | connectionPool (ssl : SSLConfig) (timeout : TimeoutConfig) (pool_limits : PoolLimits)
  | cookieAdapter (dispatch : Dispatcher)
  | authenticationAdapter (dispatch : Dispatcher)
  | redirectAdapter (dispatch : Dispatcher) (max_redirects : Int)
  | environmentAdapter (dispatch : Dispatcher)
  deriving DecidableEq

/-- A value stored in the `options` keyword dictionary that `Client.send` builds
and passes to `self.adapter.send(request, **options)`: the `stream` and
`allow_redirects` entries are booleans, the optional `ssl` and `timeout`
entries carry the per-call configuration objects. -/
inductive OptionValue where
  | boolVal (b : Bool)
  | sslVal (s : SSLConfig)
  | timeoutVal (t : TimeoutConfig)
  deriving DecidableEq

/-- The `options` dictionary is modelled as an association list in insertion
order, exactly as `Client.send` builds it. -/
def OptionsDict : Type := List (String × OptionValue)

/-- One call made by the client on its adapter chain: `prepare_request`, `send`
(with the keyword options dictionary) or `close`, each recording the dispatcher
object it was invoked on. -/
inductive Effect where
  | prepared (adapter : Dispatcher) (request : Request)
  | sent (adapter : Dispatcher) (request : Request) (options : List (String × OptionValue))
  | closed (adapter : Dispatcher)
  deriving DecidableEq

/-- Modelled from the spec: the observable behaviour of the (external) adapter
chain, abstracted.  `prepare_request` may annotate the request in place (the
spec gives requests "mutable state for the pipeline to annotate"), which is
modelled as returning the updated request; `send` produces a response.  All
theorems about `client.py` hold for every such behaviour. -/
structure AdapterBehavior where
  prepare_request : Dispatcher → Request → Request
  send : Dispatcher → Request → List (String × OptionValue) → Response

/-- The `Client` object: after `__init__` runs, its only attribute is
`self.adapter`, the outermost dispatcher of the chain. -/
structure Client where
  adapter : Dispatcher
  deriving DecidableEq

/-- `Client.__init__` (client.py lines 31-46): builds the connection pool from
`ssl`, `timeout` and `pool_limits`, wraps it in the cookie adapter, wraps that
in the authentication adapter, wraps that in the redirect adapter together with
`max_redirects`, and stores the environment adapter wrapping the redirect
adapter as `self.adapter`. -/
def Client.init (ssl : SSLConfig) (timeout : TimeoutConfig)
    (pool_limits : PoolLimits) (max_redirects : Int) : Client :=
  let connection_pool := Dispatcher.connectionPool ssl timeout pool_limits
  let cookie_adapter := Dispatcher.cookieAdapter connection_pool
  let auth_adapter := Dispatcher.authenticationAdapter cookie_adapter
  let redirect_adapter := Dispatcher.redirectAdapter auth_adapter max_redirects
  { adapter := Dispatcher.environmentAdapter redirect_adapter }

/-- The options dictionary built inside `Client.send` (client.py lines 251-259):
it starts with the `stream` and `allow_redirects` entries and gains an `ssl`
entry only when the `ssl` given by the caller is not `None`, then a `timeout`
entry only when the `timeout` given by the caller is not `None`. -/
def sendOptions (stream : Bool) (allow_redirects : Bool) (ssl : Option SSLConfig)
    (timeout : Option TimeoutConfig) : List (String × OptionValue) :=
  let options := [("stream", OptionValue.boolVal stream),
                  ("allow_redirects", OptionValue.boolVal allow_redirects)]
  let options := match ssl with
    | some s => options ++ [("ssl", OptionValue.sslVal s)]
    | none => options
  match timeout with
  | some t => options ++ [("timeout", OptionValue.timeoutVal t)]
  | none => options

/-- `Client.send` (client.py lines 242-261): builds the options dictionary and
returns `await self.adapter.send(request, **options)`.  The result pairs the
response with the trace of adapter calls made. -/
def Client.send (A : AdapterBehavior) (c : Client) (request : Request)
    (stream : Bool) (allow_redirects : Bool) (ssl : Option SSLConfig)
    (timeout : Option TimeoutConfig) : Response × List Effect :=
  let options := sendOptions stream allow_redirects ssl timeout
  (A.send c.adapter request options, [Effect.sent c.adapter request options])

/-- `Client.prepare_request` (client.py lines 239-240): calls
`self.adapter.prepare_request(request)`.  The in-place annotation of the
request is modelled by returning the updated request alongside the trace. -/
def Client.prepare_request (A : AdapterBehavior) (c : Client) (request : Request) :
    Request × List Effect :=
  (A.prepare_request c.adapter request, [Effect.prepared c.adapter request])

/-- The default body in the signature of `Client.request` (client.py line 56):
`data: RequestData = b""`, the empty byte string. -/
def defaultData : List Nat := []

/-- `Client.request` (client.py lines 51-75): constructs
`Request(method, url, data=data, query_params=query_params, headers=headers)`,
calls `self.prepare_request(request)`, then returns the response of
`await self.send(request, stream=..., allow_redirects=..., ssl=..., timeout=...)`
on the (in-place prepared) request. -/
def Client.request (A : AdapterBehavior) (c : Client) (method : String)
    (url : String) (data : List Nat) (query_params : Option (List (String × String)))
    (headers : Option (List (String × String))) (stream : Bool)
    (allow_redirects : Bool) (ssl : Option SSLConfig)
    (timeout : Option TimeoutConfig) : Response × List Effect :=
  let request := Request.mk method url data query_params headers
  let prep := Client.prepare_request A c request
  let res := Client.send A c prep.1 stream allow_redirects ssl timeout
  (res.1, prep.2 ++ res.2)

/-- `Client.get` (client.py lines 77-97): returns
`await self.request("GET", url, query_params=..., headers=..., stream=...,
allow_redirects=..., ssl=..., timeout=...)`; no `data` argument is passed, so
the default empty body of `Client.request` applies. -/
def Client.get (A : AdapterBehavior) (c : Client) (url : String)
    (query_params : Option (List (String × String)))
    (headers : Option (List (String × String))) (stream : Bool)
    (allow_redirects : Bool) (ssl : Option SSLConfig)
    (timeout : Option TimeoutConfig) : Response × List Effect :=
  Client.request A c "GET" url defaultData query_params headers stream
    allow_redirects ssl timeout

/-- `Client.options` (client.py lines 99-119): returns
`await self.request("OPTIONS", url, ...)`; no `data` argument is passed. -/
def Client.options (A : AdapterBehavior) (c : Client) (url : String)
    (query_params : Option (List (String × String)))
    (headers : Option (List (String × String))) (stream : Bool)
    (allow_redirects : Bool) (ssl : Option SSLConfig)
    (timeout : Option TimeoutConfig) : Response × List Effect :=
  Client.request A c "OPTIONS" url defaultData query_params headers stream
    allow_redirects ssl timeout

/-- `Client.head` (client.py lines 121-141): returns
`await self.request("HEAD", url, ...)`; no `data` argument is passed.  Its
signature defaults `allow_redirects=False` (line 128, "Differs to usual
default"). -/
def Client.head (A : AdapterBehavior) (c : Client) (url : String)
    (query_params : Option (List (String × String)))
    (headers : Option (List (String × String))) (stream : Bool)
    (allow_redirects : Bool) (ssl : Option SSLConfig)
    (timeout : Option TimeoutConfig) : Response × List Effect :=
  Client.request A c "HEAD" url defaultData query_params headers stream
    allow_redirects ssl timeout

/-- `Client.post` (client.py lines 143-165): returns
`await self.request("POST", url, data=data, ...)`. -/
def Client.post (A : AdapterBehavior) (c : Client) (url : String)
    (data : List Nat) (query_params : Option (List (String × String)))
    (headers : Option (List (String × String))) (stream : Bool)
    (allow_redirects : Bool) (ssl : Option SSLConfig)
    (timeout : Option TimeoutConfig) : Response × List Effect :=
  Client.request A c "POST" url data query_params headers stream
    allow_redirects ssl timeout

/-- `Client.put` (client.py lines 167-189): returns
`await self.request("PUT", url, data=data, ...)`. -/
def Client.put (A : AdapterBehavior) (c : Client) (url : String)
    (data : List Nat) (query_params : Option (List (String × String)))
    (headers : Option (List (String × String))) (stream : Bool)
    (allow_redirects : Bool) (ssl : Option SSLConfig)
    (timeout : Option TimeoutConfig) : Response × List Effect :=
  Client.request A c "PUT" url data query_params headers stream
    allow_redirects ssl timeout

/-- `Client.patch` (client.py lines 191-213): returns
`await self.request("PATCH", url, data=data, ...)`. -/
def Client.patch (A : AdapterBehavior) (c : Client) (url : String)
    (data : List Nat) (query_params : Option (List (String × String)))
    (headers : Option (List (String × String))) (stream : Bool)
    (allow_redirects : Bool) (ssl : Option SSLConfig)
    (timeout : Option TimeoutConfig) : Response × List Effect :=
  Client.request A c "PATCH" url data query_params headers stream
    allow_redirects ssl timeout

/-- `Client.delete` (client.py lines 215-237): returns
`await self.request("DELETE", url, data=data, ...)`. -/
def Client.delete (A : AdapterBehavior) (c : Client) (url : String)
    (data : List Nat) (query_params : Option (List (String × String)))
    (headers : Option (List (String × String))) (stream : Bool)
    (allow_redirects : Bool) (ssl : Option SSLConfig)
    (timeout : Option TimeoutConfig) : Response × List Effect :=
  Client.request A c "DELETE" url data query_params headers stream
    allow_redirects ssl timeout

/-- `Client.close` (client.py lines 263-264): calls `await self.adapter.close()`
and nothing else. -/
def Client.close (c : Client) : List Effect :=
  [Effect.closed c.adapter]

/-- `Client.__aenter__` (client.py lines 266-267): returns `self`, performing
no adapter call and no state change. -/
def Client.aenter (c : Client) : Client × List Effect :=
  (c, [])

/-- `Client.__aexit__` (client.py lines 269-275): ignores its
`exc_type`/`exc_value`/`traceback` arguments (each defaulting to `None`) and
calls `await self.close()` unconditionally.  The exception type, value and
traceback are kept fully abstract as type parameters. -/
def Client.aexit {ε υ τ : Type} (c : Client) (exc_type : Option ε)
    (exc_value : Option υ) (traceback : Option τ) : List Effect :=
  Client.close c

/-- `Client.get` called with only a url, every keyword argument left at the
default of its signature (client.py lines 77-87): `query_params=None`,
`headers=None`, `stream=False`, `allow_redirects=True`, `ssl=None`,
`timeout=None`. -/
def Client.get_defaults (A : AdapterBehavior) (c : Client) (url : String) :
    Response × List Effect :=
  Client.get A c url none none false true none none

/-- `Client.options` called with only a url, every keyword argument left at the
default of its signature (client.py lines 99-109), in particular
`allow_redirects=True`. -/
def Client.options_defaults (A : AdapterBehavior) (c : Client) (url : String) :
    Response × List Effect :=
  Client.options A c url none none false true none none

/-- `Client.head` called with only a url, every keyword argument left at the
default of its signature (client.py lines 121-131), in particular
`allow_redirects=False` (line 128). -/
def Client.head_defaults (A : AdapterBehavior) (c : Client) (url : String) :
    Response × List Effect :=
  Client.head A c url none none false false none none

/-- `Client.post` called with only a url, every keyword argument left at the
default of its signature (client.py lines 143-154): `data=b""`,
`allow_redirects=True`, the rest as for `get`. -/
def Client.post_defaults (A : AdapterBehavior) (c : Client) (url : String) :
    Response × List Effect :=
  Client.post A c url defaultData none none false true none none

/-- `Client.put` called with only a url, every keyword argument left at the
default of its signature (client.py lines 167-178), in particular
`allow_redirects=True`. -/
def Client.put_defaults (A : AdapterBehavior) (c : Client) (url : String) :
    Response × List Effect :=
  Client.put A c url defaultData none none false true none none

/-- `Client.patch` called with only a url, every keyword argument left at the
default of its signature (client.py lines 191-202), in particular
`allow_redirects=True`. -/
def Client.patch_defaults (A : AdapterBehavior) (c : Client) (url : String) :
    Response × List Effect :=
  Client.patch A c url defaultData none none false true none none

/-- `Client.delete` called with only a url, every keyword argument left at the
default of its signature (client.py lines 215-226), in particular
`allow_redirects=True`. -/
def Client.delete_defaults (A : AdapterBehavior) (c : Client) (url : String) :
    Response × List Effect :=
  Client.delete A c url defaultData none none false true none none

/-- Dictionary lookup on the options association list: the value stored under
`key`, or `none` when the key is absent. -/
def lookupOption (key : String) (opts : List (String × OptionValue)) :
    Option OptionValue :=
  (opts.find? (fun kv => kv.1 == key)).map Prod.snd

/-- The options dictionaries of the `send` calls in a trace, in order. -/
def sentOptionsOf (effects : List Effect) : List (List (String × OptionValue)) :=
  effects.filterMap fun e => match e with
    | Effect.sent _ _ opts => some opts
    | _ => none

/-- The requests of the `prepare_request` calls in a trace, in order: these are
the requests exactly as the client constructed them, before any adapter
annotation. -/
def preparedRequestsOf (effects : List Effect) : List Request :=
  effects.filterMap fun e => match e with
    | Effect.prepared _ r => some r
    | _ => none

/-- The dispatchers that `send` calls in a trace were invoked on, in order. -/
def sentDispatchersOf (effects : List Effect) : List Dispatcher :=
  effects.filterMap fun e => match e with
    | Effect.sent d _ _ => some d
    | _ => none

/-- The configuration held by the connection-pool layer of a chain, if any. -/
def Dispatcher.poolConfig : Dispatcher → Option (SSLConfig × TimeoutConfig × PoolLimits)
  | Dispatcher.connectionPool s t p => some (s, t, p)
  | Dispatcher.cookieAdapter d => Dispatcher.poolConfig d
  | Dispatcher.authenticationAdapter d => Dispatcher.poolConfig d
  | Dispatcher.redirectAdapter d _ => Dispatcher.poolConfig d
  | Dispatcher.environmentAdapter d => Dispatcher.poolConfig d

/-- The hop bound held by the redirect layer of a chain, if any. -/
def Dispatcher.redirectBound : Dispatcher → Option Int
  | Dispatcher.connectionPool _ _ _ => none
  | Dispatcher.cookieAdapter d => Dispatcher.redirectBound d
  | Dispatcher.authenticationAdapter d => Dispatcher.redirectBound d
  | Dispatcher.redirectAdapter _ m => some m
  | Dispatcher.environmentAdapter d => Dispatcher.redirectBound d

/-- Claim C1: construction builds the adapter chain exactly once, in the fixed
order environment adapter wrapping redirect adapter wrapping authentication
adapter wrapping cookie adapter wrapping connection pool, and every subsequent
`send` on that client dispatches through that same outermost environment
adapter — the dispatcher of the sole `send` call in the trace is exactly the
adapter stored at construction, with no re-wiring at call time. -/
theorem client_chain_fixed_and_send_dispatches_outermost
    (ssl : SSLConfig) (timeout : TimeoutConfig) (pl : PoolLimits) (mr : Int)
    (A : AdapterBehavior) (r : Request) (st ar : Bool)
    (so : Option SSLConfig) (tmo : Option TimeoutConfig) :
    (Client.init ssl timeout pl mr).adapter
      = Dispatcher.environmentAdapter (Dispatcher.redirectAdapter
          (Dispatcher.authenticationAdapter (Dispatcher.cookieAdapter
            (Dispatcher.connectionPool ssl timeout pl))) mr)
    ∧ sentDispatchersOf (Client.send A (Client.init ssl timeout pl mr) r st ar so tmo).2
      = [(Client.init ssl timeout pl mr).adapter] :=
  ⟨rfl, rfl⟩

/-- Claim C2: every per-verb convenience method defaults `allow_redirects` to
true except `head`, which defaults it to false: called with only a url (all
keyword arguments left at their signature defaults), `head` dispatches a single
`send` whose options carry `allow_redirects = false`, while `get`, `options`,
`post`, `put`, `patch` and `delete` dispatch with `allow_redirects = true`. -/
theorem verb_default_allow_redirects (A : AdapterBehavior) (c : Client)
    (url : String) :
    (sentOptionsOf (Client.head_defaults A c url).2).map
        (lookupOption "allow_redirects") = [some (OptionValue.boolVal false)]
    ∧ (sentOptionsOf (Client.get_defaults A c url).2).map
        (lookupOption "allow_redirects") = [some (OptionValue.boolVal true)]
    ∧ (sentOptionsOf (Client.options_defaults A c url).2).map
        (lookupOption "allow_redirects") = [some (OptionValue.boolVal true)]
    ∧ (sentOptionsOf (Client.post_defaults A c url).2).map
        (lookupOption "allow_redirects") = [some (OptionValue.boolVal true)]
    ∧ (sentOptionsOf (Client.put_defaults A c url).2).map
        (lookupOption "allow_redirects") = [some (OptionValue.boolVal true)]
    ∧ (sentOptionsOf (Client.patch_defaults A c url).2).map
        (lookupOption "allow_redirects") = [some (OptionValue.boolVal true)]
    ∧ (sentOptionsOf (Client.delete_defaults A c url).2).map
        (lookupOption "allow_redirects") = [some (OptionValue.boolVal true)] :=
  ⟨rfl, rfl, rfl, rfl, rfl, rfl, rfl⟩

/-- Claim C3: the exit handler of the scoped-resource pairing invokes `close()`
unconditionally: for all exception-type/value/traceback arguments, over all
types of those arguments and including the all-`None` case of a normal return,
`__aexit__` performs exactly the adapter calls of `close()` — a single `close`
on the chain — and nothing else. -/
theorem aexit_always_closes {ε υ τ : Type} (c : Client) (et : Option ε)
    (ev : Option υ) (tb : Option τ) :
    Client.aexit c et ev tb = Client.close c
    ∧ Client.aexit c (none : Option ε) (none : Option υ) (none : Option τ)
      = [Effect.closed c.adapter] :=
  ⟨rfl, rfl⟩

/-- Claim C4: each per-verb convenience method is a pure argument-forwarding
wrapper over `request`: for every url and every combination of the keyword
arguments it accepts, its result — response and adapter-call trace alike, so no
other computation or state change of its own — is exactly that of `request`
called with the corresponding fixed method string and the same arguments, the
bodyless verbs forwarding the default empty body of `request`. -/
theorem verbs_forward_to_request (A : AdapterBehavior) (c : Client)
    (url : String) (d : List Nat) (qp hs : Option (List (String × String)))
    (st ar : Bool) (so : Option SSLConfig) (tmo : Option TimeoutConfig) :
    Client.get A c url qp hs st ar so tmo
      = Client.request A c "GET" url defaultData qp hs st ar so tmo
    ∧ Client.options A c url qp hs st ar so tmo
      = Client.request A c "OPTIONS" url defaultData qp hs st ar so tmo
    ∧ Client.head A c url qp hs st ar so tmo
      = Client.request A c "HEAD" url defaultData qp hs st ar so tmo
    ∧ Client.post A c url d qp hs st ar so tmo
      = Client.request A c "POST" url d qp hs st ar so tmo
    ∧ Client.put A c url d qp hs st ar so tmo
      = Client.request A c "PUT" url d qp hs st ar so tmo
    ∧ Client.patch A c url d qp hs st ar so tmo
      = Client.request A c "PATCH" url d qp hs st ar so tmo
    ∧ Client.delete A c url d qp hs st ar so tmo
      = Client.request A c "DELETE" url d qp hs st ar so tmo :=
  ⟨rfl, rfl, rfl, rfl, rfl, rfl, rfl⟩

/-- Claim C5: `Client.request` constructs a `Request` from exactly the given
method, url, data, query params and headers, passes that request to
`prepare_request` before dispatch, then calls `send` on the prepared request
with the per-call stream/allow_redirects/ssl/timeout options, and returns the
response produced by the `send` of the chain unchanged. -/
theorem request_builds_prepares_sends (A : AdapterBehavior) (c : Client)
    (method url : String) (d : List Nat)
    (qp hs : Option (List (String × String))) (st ar : Bool)
    (so : Option SSLConfig) (tmo : Option TimeoutConfig) :
    (Client.request A c method url d qp hs st ar so tmo).2
      = [Effect.prepared c.adapter (Request.mk method url d qp hs),
         Effect.sent c.adapter
           (A.prepare_request c.adapter (Request.mk method url d qp hs))
           (sendOptions st ar so tmo)]
    ∧ (Client.request A c method url d qp hs st ar so tmo).1
      = A.send c.adapter
          (A.prepare_request c.adapter (Request.mk method url d qp hs))
          (sendOptions st ar so tmo) :=
  ⟨rfl, rfl⟩

/-- Claim C6: `Client.send` forwards a per-call `ssl` or `timeout` entry to the
adapter chain if and only if the caller supplied a non-`None` value for it —
the lookup of each key in the forwarded options equals the optional value the
caller gave — while the `stream` and `allow_redirects` entries are always
present in the forwarded options. -/
theorem send_forwards_overrides_iff_given (A : AdapterBehavior) (c : Client)
    (r : Request) (st ar : Bool) (so : Option SSLConfig)
    (tmo : Option TimeoutConfig) :
    (Client.send A c r st ar so tmo).2
      = [Effect.sent c.adapter r (sendOptions st ar so tmo)]
    ∧ lookupOption "ssl" (sendOptions st ar so tmo) = so.map OptionValue.sslVal
    ∧ lookupOption "timeout" (sendOptions st ar so tmo)
      = tmo.map OptionValue.timeoutVal
    ∧ lookupOption "stream" (sendOptions st ar so tmo)
      = some (OptionValue.boolVal st)
    ∧ lookupOption "allow_redirects" (sendOptions st ar so tmo)
      = some (OptionValue.boolVal ar) := by
  refine ⟨rfl, ?_, ?_, ?_, ?_⟩ <;> cases so <;> cases tmo <;> rfl

/-- Claim C7: the constructor routes each configuration value to exactly one
component: the connection-pool layer holds exactly the given `ssl`, `timeout`
and `pool_limits`, the redirect layer holds exactly the given `max_redirects`,
and nothing is dropped or put elsewhere — the whole client equals the explicit
five-layer chain built from those four values alone. -/
theorem init_routes_config (ssl : SSLConfig) (timeout : TimeoutConfig)
    (pl : PoolLimits) (mr : Int) :
    Dispatcher.poolConfig (Client.init ssl timeout pl mr).adapter
      = some (ssl, timeout, pl)
    ∧ Dispatcher.redirectBound (Client.init ssl timeout pl mr).adapter = some mr
    ∧ Client.init ssl timeout pl mr
      = { adapter := Dispatcher.environmentAdapter (Dispatcher.redirectAdapter
          (Dispatcher.authenticationAdapter (Dispatcher.cookieAdapter
            (Dispatcher.connectionPool ssl timeout pl))) mr) } :=
  ⟨rfl, rfl, rfl⟩

/-- Claim C8: `Client.close` calls `close` exactly once, on the outermost
adapter it stores — for a constructed client, the environment adapter of the
chain built at construction — and performs no other action. -/
theorem close_tears_down_chain (c : Client) (ssl : SSLConfig)
    (timeout : TimeoutConfig) (pl : PoolLimits) (mr : Int) :
    Client.close c = [Effect.closed c.adapter]
    ∧ Client.close (Client.init ssl timeout pl mr)
      = [Effect.closed (Dispatcher.environmentAdapter (Dispatcher.redirectAdapter
          (Dispatcher.authenticationAdapter (Dispatcher.cookieAdapter
            (Dispatcher.connectionPool ssl timeout pl))) mr))] :=
  ⟨rfl, rfl⟩

/-- Claim C9: `get`, `options` and `head` take no body argument, so for every
combination of the arguments they do accept, the request they construct carries
the default empty body; `request` and the `post`/`put`/`patch`/`delete`
shorthands construct requests carrying exactly the body the caller supplies, so
only they can attach a non-empty one. -/
theorem bodyless_verbs_empty_body (A : AdapterBehavior) (c : Client)
    (url : String) (d : List Nat) (qp hs : Option (List (String × String)))
    (st ar : Bool) (so : Option SSLConfig) (tmo : Option TimeoutConfig) :
    (preparedRequestsOf (Client.get A c url qp hs st ar so tmo).2).map
        Request.data = [[]]
    ∧ (preparedRequestsOf (Client.options A c url qp hs st ar so tmo).2).map
        Request.data = [[]]
    ∧ (preparedRequestsOf (Client.head A c url qp hs st ar so tmo).2).map
        Request.data = [[]]
    ∧ (preparedRequestsOf (Client.post A c url d qp hs st ar so tmo).2).map
        Request.data = [d]
    ∧ (preparedRequestsOf (Client.put A c url d qp hs st ar so tmo).2).map
        Request.data = [d]
    ∧ (preparedRequestsOf (Client.patch A c url d qp hs st ar so tmo).2).map
        Request.data = [d]
    ∧ (preparedRequestsOf (Client.delete A c url d qp hs st ar so tmo).2).map
        Request.data = [d]
    ∧ (preparedRequestsOf
        (Client.request A c "POST" url d qp hs st ar so tmo).2).map
        Request.data = [d] :=
  ⟨rfl, rfl, rfl, rfl, rfl, rfl, rfl, rfl⟩

/-- Claim C10: entering the scoped-resource context of the client yields the
very same client object, with no adapter call made and every field — in
particular the adapter chain — unchanged. -/
theorem aenter_returns_self (c : Client) :
    Client.aenter c = (c, []) ∧ (Client.aenter c).1.adapter = c.adapter :=
  ⟨rfl, rfl⟩

end Httpcore
